import Mathlib

/-!
Shallow embedding of `WhatsAppSocketManager` from mk-messenger-api
(src/src/modules/whatsapp/WhatsAppSocketManager.ts), together with the
operations the verification claims refer to.

Modelling choices, each traced to the source:
* A connection update (`Partial ConnectionState` of baileys, with the derived
  Boom status code) is a record of optional fields `connection`, `statusCode`
  and `qr`: only those fields are read by the manager.
* The baileys `DisconnectReason` codes the manager special-cases are
  `loggedOut = 401` and `restartRequired = 515`.
* `sockets : Map<string, WASocket>` becomes an association list from names to
  handle identifiers; `Map.set` updates in place or appends, `Map.delete`
  removes the key.
* `connectionUpdateSubjects : { [name]: Subject }` becomes an association list
  from names to the subject's current subscriber list; an rxjs `Subject` is
  hot: `next` delivers to the subscribers present at that moment, nothing is
  buffered.  Deliveries are logged in `delivered`.
* The credential store (the `tokens/<name>` folders handled by
  `useMultiFileAuthState`, `handleLoggedOut` and `fs.readdir`) becomes an
  association list from names to an opaque material value; a fresh, empty
  material is the value 0.
* `makeWASocket` yields a fresh transport handle, numbered by `nextHandle`;
  the handle stays live until its transport emits a close update (the manager
  itself never calls close).  `liveHandles` tracks the live handles, and
  `openLog` records, in order, every transport open call issued.
-/

namespace MkMessenger

/-- The `connection` field of a baileys connection update. -/
inductive Conn where
  | copen
  | cclose
  | cconnecting
deriving DecidableEq

/-- A connection update as consumed by `handleConnectionUpdate`: the
`connection` field, the Boom status code of `lastDisconnect.error` (if any),
and the pairing `qr` payload (if any). -/
structure ConnUpdate where
  connection : Option Conn
  statusCode : Option Nat
  qr : Option String
deriving DecidableEq

/-- The baileys code `DisconnectReason.loggedOut`. -/
def loggedOutCode : Nat := 401

/-- The baileys code `DisconnectReason.restartRequired`. -/
def restartRequiredCode : Nat := 515

/-- Lookup in an association list with string keys (JS `Map.get` /
property access). -/
def alookup {α : Type} : List (String × α) → String → Option α
  | [], _ => none
  | (k, v) :: t, k' => if k = k' then some v else alookup t k'

/-- JS `Map.set` / property assignment: replace the first binding of the key
in place, or append a new binding. -/
def aset {α : Type} : List (String × α) → String → α → List (String × α)
  | [], k, v => [(k, v)]
  | (k', v') :: t, k, v =>
      if k' = k then (k, v) :: t else (k', v') :: aset t k v

/-- JS `Map.delete`: remove the bindings of the key. -/
def aerase {α : Type} (l : List (String × α)) (k : String) : List (String × α) :=
  l.filter (fun p => decide (p.1 ≠ k))

/-- The keys of an association list. -/
def keys {α : Type} (l : List (String × α)) : List String :=
  l.map Prod.fst

/-- The state of a `WhatsAppSocketManager` instance together with the
transport- and delivery-level bookkeeping the claims quantify over. -/
structure ManagerState where
  /-- Field `private sockets: Map<string, WASocket>` — name to registered handle. -/
  sockets : List (String × Nat)
  /-- Field `private connectionUpdateSubjects` — name to the subject's subscribers. -/
  subjects : List (String × List Nat)
  /-- The credential store: the `tokens/<name>` folders, name to material. -/
  creds : List (String × Nat)
  /-- Source of fresh transport handle identifiers. -/
  nextHandle : Nat
  /-- Transport handles opened and not yet closed, with their session name. -/
  liveHandles : List (String × Nat)
  /-- Every transport open call (`makeWASocket`) issued, in order, by name. -/
  openLog : List String
  /-- Log of event deliveries: (subscriber, update) pairs, in order. -/
  delivered : List (Nat × ConnUpdate)
deriving DecidableEq

/-- A manager as freshly constructed: every map empty. -/
def ManagerState.init : ManagerState :=
  { sockets := [], subjects := [], creds := [], nextHandle := 0,
    liveHandles := [], openLog := [], delivered := [] }

/-- Result of a session-creation call, following the spec's error taxonomy. -/
inductive CreateResult where
  | ok
  | alreadyExists
deriving DecidableEq

/-- Model of `useMultiFileAuthState('tokens/' + name)`: load the stored credential
material for `name`, creating fresh, empty material (value 0) if none is
stored.  Existing material is left untouched. -/
def useMultiFileAuthState (name : String) (st : ManagerState) : ManagerState :=
  match alookup st.creds name with
  | some _ => st
  | none => { st with creds := aset st.creds name 0 }

/-- Model of `createSocketWhatsApp(name)`: load or initialize the auth state, open a
new transport handle (`makeWASocket`), attach the update listeners, and
register the handle under `name` with `sockets.set`.  The promise always
resolves: there is no duplicate check and no failure path. -/
def createSocketWhatsApp (name : String) (st : ManagerState) :
    CreateResult × ManagerState :=
  let st1 := useMultiFileAuthState name st
  let h := st1.nextHandle
  (CreateResult.ok,
   { st1 with
      nextHandle := h + 1
      liveHandles := st1.liveHandles ++ [(name, h)]
      openLog := st1.openLog ++ [name]
      sockets := aset st1.sockets name h })

/-- The trailing emit of `handleConnectionUpdate`: if a subject exists for
`name`, `next(update)` delivers the update to each current subscriber;
otherwise nothing happens. -/
def publish (name : String) (u : ConnUpdate) (st : ManagerState) : ManagerState :=
  match alookup st.subjects name with
  | none => st
  | some subs =>
      { st with delivered := st.delivered ++ subs.map (fun s => (s, u)) }

/-- Model of `handleConnectionUpdate({name, update})`: on `connection === 'close'`,
delete the registry entry; on `loggedOut`, also delete the tokens folder
(`handleLoggedOut`); on `restartRequired`, reconnect via
`createSocketWhatsApp`; any other code gets no further action.  Finally the
update is emitted to the subject for `name`, when one exists. -/
def handleConnectionUpdate (name : String) (u : ConnUpdate) (st : ManagerState) :
    ManagerState :=
  if u.connection = some Conn.cclose then
    let st1 := { st with sockets := aerase st.sockets name }
    let st2 :=
      if u.statusCode = some loggedOutCode then
        { st1 with creds := aerase st1.creds name }
      else if u.statusCode = some restartRequiredCode then
        (createSocketWhatsApp name st1).2
      else st1
    publish name u st2
  else
    publish name u st

/-- Model of `getConnectionUpdateObservable(name)`: create the subject for `name`
lazily if absent, then return it.  Here the call's effect on the manager
state; the returned subject is the binding of `name` afterwards. -/
def getConnectionUpdateObservable (name : String) (st : ManagerState) :
    ManagerState :=
  match alookup st.subjects name with
  | some _ => st
  | none => { st with subjects := aset st.subjects name [] }

/-- A caller obtains the observable for `name` and subscribes `s` to it:
the subject is created lazily if needed and `s` joins its subscribers. -/
def subscribeTo (name : String) (s : Nat) (st : ManagerState) : ManagerState :=
  let st1 := getConnectionUpdateObservable name st
  { st1 with
      subjects := aset st1.subjects name
        (((alookup st1.subjects name).getD []) ++ [s]) }

/-- Model of `getExistingSessionNames()`: `fs.readdir` of the tokens folder — the
names holding stored credential material. -/
def getExistingSessionNames (st : ManagerState) : List String :=
  keys st.creds

/-- Model of `getSocketByName(name)`. -/
def getSocketByName (name : String) (st : ManagerState) : Option Nat :=
  alookup st.sockets name

/-- The events driving the manager: a creation request, a transport lifecycle
update arriving from live handle `h` of session `name`, or a subscriber
joining the observable of a name. -/
inductive Op where
  | create (name : String)
  | transportEvent (name : String) (h : Nat) (u : ConnUpdate)
  | subscribeOp (name : String) (s : Nat)

/-- One step of the system: the manager's reaction to an operation, plus the
transport-level bookkeeping (a handle whose transport emitted `close` stops
being live). -/
def step (st : ManagerState) (op : Op) : ManagerState :=
  match op with
  | Op.create name => (createSocketWhatsApp name st).2
  | Op.transportEvent name h u =>
      let st1 :=
        if u.connection = some Conn.cclose then
          { st with liveHandles := st.liveHandles.filter (fun p => decide (p ≠ (name, h))) }
        else st
      handleConnectionUpdate name u st1
  | Op.subscribeOp name s => subscribeTo name s st

/-- Running a sequence of operations from a state. -/
def run (st : ManagerState) (ops : List Op) : ManagerState :=
  ops.foldl step st

/-- The reachable manager states: the fresh manager, closed under steps. -/
inductive Reachable : ManagerState → Prop where
  | init : Reachable ManagerState.init
  | step : ∀ st op, Reachable st → Reachable (step st op)

/-- The pure connection-lifecycle policy the close-handling branches of
`handleConnectionUpdate` implement, as a function of the update alone. -/
inductive PolicyAction where
  | purgeAndDeregister
  | reconnect
  | deregisterOnly
  | noClose
deriving DecidableEq

/-- The decision taken by `handleConnectionUpdate`, read off its
`if` structure: a pure function of the update. -/
def nextAction (u : ConnUpdate) : PolicyAction :=
  if u.connection = some Conn.cclose then
    if u.statusCode = some loggedOutCode then PolicyAction.purgeAndDeregister
    else if u.statusCode = some restartRequiredCode then PolicyAction.reconnect
    else PolicyAction.deregisterOnly
  else PolicyAction.noClose

/-- Applying a policy decision for `name` to the manager state. -/
def applyAction (name : String) (a : PolicyAction) (st : ManagerState) :
    ManagerState :=
  match a with
  | PolicyAction.purgeAndDeregister =>
      let st1 := { st with sockets := aerase st.sockets name }
      { st1 with creds := aerase st1.creds name }
  | PolicyAction.reconnect =>
      (createSocketWhatsApp name { st with sockets := aerase st.sockets name }).2
  | PolicyAction.deregisterOnly => { st with sockets := aerase st.sockets name }
  | PolicyAction.noClose => st

/-! ### Association-list lemmas -/

theorem alookup_aset_self {α : Type} (l : List (String × α)) (k : String) (v : α) :
    alookup (aset l k v) k = some v := by
  induction l with
  | nil => simp [aset, alookup]
  | cons p t ih =>
    obtain ⟨k', v'⟩ := p
    by_cases h : k' = k
    · simp [aset, h, alookup]
    · simp [aset, h, alookup, ih]

theorem alookup_aerase_self {α : Type} (l : List (String × α)) (k : String) :
    alookup (aerase l k) k = none := by
  induction l with
  | nil => rfl
  | cons p t ih =>
    obtain ⟨k', v'⟩ := p
    by_cases h : k' = k
    · simpa [aerase, List.filter_cons, h] using ih
    · simpa [aerase, List.filter_cons, h, alookup] using ih

theorem mem_keys_aset {α : Type} (l : List (String × α)) (k : String) (v : α)
    (n : String) : n ∈ keys (aset l k v) ↔ (n = k ∨ n ∈ keys l) := by
  induction l with
  | nil => simp [aset, keys]
  | cons p t ih =>
    obtain ⟨k', v'⟩ := p
    by_cases h : k' = k
    · subst h
      simp [aset, keys]
    · simp [aset, keys, h] at ih ⊢
      tauto

theorem mem_keys_aerase {α : Type} (l : List (String × α)) (k n : String) :
    n ∈ keys (aerase l k) ↔ (n ≠ k ∧ n ∈ keys l) := by
  simp only [aerase, keys, List.mem_map, List.mem_filter, decide_eq_true_eq]
  constructor
  · rintro ⟨p, ⟨hp, hne⟩, rfl⟩
    exact ⟨hne, p, hp, rfl⟩
  · rintro ⟨hne, p, hp, rfl⟩
    exact ⟨p, ⟨hp, hne⟩, rfl⟩

theorem alookup_none_iff {α : Type} (l : List (String × α)) (k : String) :
    alookup l k = none ↔ k ∉ keys l := by
  induction l with
  | nil => simp [alookup, keys]
  | cons p t ih =>
    obtain ⟨k', v'⟩ := p
    by_cases h : k' = k
    · subst h
      simp [alookup, keys]
    · simp [alookup, keys, h, ih, Ne.symm h]

theorem mem_keys_of_alookup {α : Type} {l : List (String × α)} {k : String}
    {v : α} (h : alookup l k = some v) : k ∈ keys l := by
  by_contra hk
  rw [(alookup_none_iff l k).mpr hk] at h
  cases h

theorem aset_of_alookup_none {α : Type} (l : List (String × α)) (k : String)
    (v : α) (h : alookup l k = none) : aset l k v = l ++ [(k, v)] := by
  induction l with
  | nil => rfl
  | cons p t ih =>
    obtain ⟨k', v'⟩ := p
    by_cases hk : k' = k
    · simp [alookup, hk] at h
    · simp [alookup, hk] at h
      simp [aset, hk, ih h]

theorem keys_aerase_nodup {α : Type} (l : List (String × α)) (k : String)
    (h : (keys l).Nodup) : (keys (aerase l k)).Nodup :=
  List.Nodup.sublist (List.Sublist.map Prod.fst (List.filter_sublist l)) h

theorem keys_aset_nodup {α : Type} (l : List (String × α)) (k : String) (v : α)
    (h : (keys l).Nodup) : (keys (aset l k v)).Nodup := by
  induction l with
  | nil => simp [aset, keys]
  | cons p t ih =>
    obtain ⟨k', v'⟩ := p
    simp only [keys, List.map_cons, List.nodup_cons] at h
    obtain ⟨hk', ht⟩ := h
    by_cases hkk : k' = k
    · subst hkk
      have hrw : aset ((k', v') :: t) k' v = (k', v) :: t := by simp [aset]
      rw [hrw]
      simp only [keys, List.map_cons, List.nodup_cons]
      exact ⟨hk', ht⟩
    · have hrw : aset ((k', v') :: t) k v = (k', v') :: aset t k v := by
        simp [aset, hkk]
      rw [hrw]
      simp only [keys, List.map_cons, List.nodup_cons]
      refine ⟨?_, ih ht⟩
      intro hmem
      rcases (mem_keys_aset t k v k').mp hmem with h1 | h1
      · exact hkk h1
      · exact hk' h1

/-! ### Field behaviour of the manager's operations -/

theorem publish_sockets (name : String) (u : ConnUpdate) (st : ManagerState) :
    (publish name u st).sockets = st.sockets := by
  unfold publish
  split <;> rfl

theorem publish_creds (name : String) (u : ConnUpdate) (st : ManagerState) :
    (publish name u st).creds = st.creds := by
  unfold publish
  split <;> rfl

theorem publish_subjects (name : String) (u : ConnUpdate) (st : ManagerState) :
    (publish name u st).subjects = st.subjects := by
  unfold publish
  split <;> rfl

theorem publish_openLog (name : String) (u : ConnUpdate) (st : ManagerState) :
    (publish name u st).openLog = st.openLog := by
  unfold publish
  split <;> rfl

theorem publish_delivered (name : String) (u : ConnUpdate) (st : ManagerState) :
    (publish name u st).delivered =
      st.delivered ++ ((alookup st.subjects name).getD []).map (fun s => (s, u)) := by
  unfold publish
  split
  next h => simp [h]
  next subs h => simp [h]

theorem useMulti_sockets (name : String) (st : ManagerState) :
    (useMultiFileAuthState name st).sockets = st.sockets := by
  unfold useMultiFileAuthState
  split <;> rfl

theorem useMulti_subjects (name : String) (st : ManagerState) :
    (useMultiFileAuthState name st).subjects = st.subjects := by
  unfold useMultiFileAuthState
  split <;> rfl

theorem useMulti_nextHandle (name : String) (st : ManagerState) :
    (useMultiFileAuthState name st).nextHandle = st.nextHandle := by
  unfold useMultiFileAuthState
  split <;> rfl

theorem useMulti_openLog (name : String) (st : ManagerState) :
    (useMultiFileAuthState name st).openLog = st.openLog := by
  unfold useMultiFileAuthState
  split <;> rfl

theorem useMulti_delivered (name : String) (st : ManagerState) :
    (useMultiFileAuthState name st).delivered = st.delivered := by
  unfold useMultiFileAuthState
  split <;> rfl

theorem useMulti_creds_of_some (st : ManagerState) (name : String) (c : Nat)
    (h : alookup st.creds name = some c) :
    (useMultiFileAuthState name st).creds = st.creds := by
  unfold useMultiFileAuthState
  rw [h]

theorem create_sockets (name : String) (st : ManagerState) :
    ((createSocketWhatsApp name st).2).sockets = aset st.sockets name st.nextHandle := by
  simp [createSocketWhatsApp, useMulti_sockets, useMulti_nextHandle]

theorem create_creds (name : String) (st : ManagerState) :
    ((createSocketWhatsApp name st).2).creds = (useMultiFileAuthState name st).creds := by
  simp [createSocketWhatsApp]

theorem create_openLog (name : String) (st : ManagerState) :
    ((createSocketWhatsApp name st).2).openLog = st.openLog ++ [name] := by
  simp [createSocketWhatsApp, useMulti_openLog]

theorem create_subjects (name : String) (st : ManagerState) :
    ((createSocketWhatsApp name st).2).subjects = st.subjects := by
  simp [createSocketWhatsApp, useMulti_subjects]

theorem create_delivered (name : String) (st : ManagerState) :
    ((createSocketWhatsApp name st).2).delivered = st.delivered := by
  simp [createSocketWhatsApp, useMulti_delivered]

theorem applyAction_subjects (name : String) (a : PolicyAction) (st : ManagerState) :
    (applyAction name a st).subjects = st.subjects := by
  cases a <;> simp [applyAction, create_subjects]

theorem applyAction_delivered (name : String) (a : PolicyAction) (st : ManagerState) :
    (applyAction name a st).delivered = st.delivered := by
  cases a <;> simp [applyAction, create_delivered]

theorem subscribeTo_sockets (name : String) (s : Nat) (st : ManagerState) :
    (subscribeTo name s st).sockets = st.sockets := by
  unfold subscribeTo getConnectionUpdateObservable
  split <;> rfl

theorem subscribeTo_creds (name : String) (s : Nat) (st : ManagerState) :
    (subscribeTo name s st).creds = st.creds := by
  unfold subscribeTo getConnectionUpdateObservable
  split <;> rfl

theorem subscribeTo_delivered (name : String) (s : Nat) (st : ManagerState) :
    (subscribeTo name s st).delivered = st.delivered := by
  unfold subscribeTo getConnectionUpdateObservable
  split <;> rfl

/-- The close-handling of `handleConnectionUpdate` factors through the pure
policy `nextAction` of the update, followed by `applyAction` and the emit. -/
theorem handle_eq (name : String) (u : ConnUpdate) (st : ManagerState) :
    handleConnectionUpdate name u st =
      publish name u (applyAction name (nextAction u) st) := by
  unfold handleConnectionUpdate nextAction applyAction
  by_cases h1 : u.connection = some Conn.cclose
  · by_cases h2 : u.statusCode = some loggedOutCode
    · simp [h1, h2]
    · by_cases h3 : u.statusCode = some restartRequiredCode
      · simp [h1, h2, h3, loggedOutCode, restartRequiredCode]
      · simp [h1, h2, h3]
  · simp [h1]

theorem handle_delivered (name : String) (u : ConnUpdate) (st : ManagerState) :
    (handleConnectionUpdate name u st).delivered =
      st.delivered ++ ((alookup st.subjects name).getD []).map (fun s => (s, u)) := by
  rw [handle_eq, publish_delivered, applyAction_delivered, applyAction_subjects]

theorem handle_subjects (name : String) (u : ConnUpdate) (st : ManagerState) :
    (handleConnectionUpdate name u st).subjects = st.subjects := by
  rw [handle_eq, publish_subjects, applyAction_subjects]

/-! ### Reachability invariants -/

theorem handle_sockets_nodup (name : String) (u : ConnUpdate) (st : ManagerState)
    (h : (keys st.sockets).Nodup) :
    (keys (handleConnectionUpdate name u st).sockets).Nodup := by
  rw [handle_eq, publish_sockets]
  cases nextAction u with
  | purgeAndDeregister =>
    simpa [applyAction] using keys_aerase_nodup st.sockets name h
  | reconnect =>
    simp only [applyAction, create_sockets]
    exact keys_aset_nodup _ _ _ (keys_aerase_nodup st.sockets name h)
  | deregisterOnly =>
    simpa [applyAction] using keys_aerase_nodup st.sockets name h
  | noClose => simpa [applyAction] using h

theorem reachable_sockets_nodup (st : ManagerState) (h : Reachable st) :
    (keys st.sockets).Nodup := by
  induction h with
  | init => simp [ManagerState.init, keys]
  | step st' op _ ih =>
    cases op with
    | create name =>
      show (keys ((createSocketWhatsApp name st').2).sockets).Nodup
      rw [create_sockets]
      exact keys_aset_nodup _ _ _ ih
    | transportEvent name hd u =>
      show (keys (handleConnectionUpdate name u _).sockets).Nodup
      apply handle_sockets_nodup
      split <;> exact ih
    | subscribeOp name s =>
      show (keys (subscribeTo name s st').sockets).Nodup
      rw [subscribeTo_sockets]
      exact ih

theorem mem_keys_create_creds (name : String) (st : ManagerState) (n : String)
    (hn : n = name ∨ n ∈ keys st.creds) :
    n ∈ keys ((createSocketWhatsApp name st).2).creds := by
  rw [create_creds]
  unfold useMultiFileAuthState
  split
  next c hs =>
    rcases hn with rfl | hmem
    · exact mem_keys_of_alookup hs
    · exact hmem
  next hs =>
    rw [mem_keys_aset]
    exact hn

theorem handle_subset_preserved (name : String) (u : ConnUpdate) (st : ManagerState)
    (h : ∀ n, n ∈ keys st.sockets → n ∈ keys st.creds) :
    ∀ n, n ∈ keys (handleConnectionUpdate name u st).sockets →
      n ∈ keys (handleConnectionUpdate name u st).creds := by
  rw [handle_eq, publish_sockets, publish_creds]
  cases nextAction u with
  | purgeAndDeregister =>
    intro n hn
    simp only [applyAction] at hn ⊢
    rw [mem_keys_aerase] at hn ⊢
    exact ⟨hn.1, h n hn.2⟩
  | reconnect =>
    intro n hn
    simp only [applyAction, create_sockets] at hn ⊢
    rw [mem_keys_aset] at hn
    apply mem_keys_create_creds
    rcases hn with rfl | hmem
    · exact Or.inl rfl
    · rw [mem_keys_aerase] at hmem
      exact Or.inr (h n hmem.2)
  | deregisterOnly =>
    intro n hn
    simp only [applyAction] at hn ⊢
    rw [mem_keys_aerase] at hn
    exact h n hn.2
  | noClose => exact h

theorem reachable_sockets_subset_creds (st : ManagerState) (h : Reachable st) :
    ∀ n, n ∈ keys st.sockets → n ∈ keys st.creds := by
  induction h with
  | init =>
    intro n hn
    simp [ManagerState.init, keys] at hn
  | step st' op _ ih =>
    cases op with
    | create name =>
      intro n hn
      simp only [step] at hn
      show n ∈ keys ((createSocketWhatsApp name st').2).creds
      rw [create_sockets] at hn
      rw [mem_keys_aset] at hn
      apply mem_keys_create_creds
      rcases hn with rfl | hmem
      · exact Or.inl rfl
      · exact Or.inr (ih n hmem)
    | transportEvent name hd u =>
      show ∀ n, n ∈ keys (handleConnectionUpdate name u _).sockets →
        n ∈ keys (handleConnectionUpdate name u _).creds
      apply handle_subset_preserved
      split <;> exact ih
    | subscribeOp name s =>
      intro n hn
      simp only [step] at hn
      show n ∈ keys (subscribeTo name s st').creds
      rw [subscribeTo_sockets] at hn
      rw [subscribeTo_creds]
      exact ih n hn

/-! ### Claims -/

/-- C1 (counterexample): two `createSocketWhatsApp` calls for the same name
`"a"`, the second while the registry still holds the first entry: neither
call returns `AlreadyExists`, refuting "exactly one succeeds and the other
returns AlreadyExists". -/
theorem c1_counterexample :
    ¬ ((createSocketWhatsApp "a" ManagerState.init).1 = CreateResult.alreadyExists ∨
       (createSocketWhatsApp "a" (createSocketWhatsApp "a" ManagerState.init).2).1 =
         CreateResult.alreadyExists) := by
  decide

/-- C1 (amended): `createSocketWhatsApp` performs no duplicate check and has
no failure path: every call returns success and registers the freshly opened
handle under the name, replacing any previous registry entry. -/
theorem c1_create_always_succeeds (name : String) (st : ManagerState) :
    (createSocketWhatsApp name st).1 = CreateResult.ok ∧
    alookup ((createSocketWhatsApp name st).2).sockets name = some st.nextHandle := by
  refine ⟨rfl, ?_⟩
  rw [create_sockets]
  exact alookup_aset_self st.sockets name st.nextHandle

/-- C2 (counterexample): the sequence of two `createSocketWhatsApp` calls for
the name `"a"`, with no close event in between, leaves two concurrently live
transport handles for `"a"`: the first handle is never closed when the second
call replaces its registry entry. -/
theorem c2_counterexample :
    ((run ManagerState.init [Op.create "a", Op.create "a"]).liveHandles.filter
        (fun p => decide (p.1 = "a"))).length = 2 := by
  decide

/-- C2 (amended): in every reachable manager state the sockets registry
holds at most one entry per name (its key list is duplicate-free), so at most
one handle is registered per name; liveness of the replaced handle is not
guaranteed. -/
theorem c2_registry_at_most_one (st : ManagerState) (name : String)
    (h : Reachable st) : (keys st.sockets).count name ≤ 1 :=
  List.nodup_iff_count_le_one.mp (reachable_sockets_nodup st h) name

/-- C2 (witness): the amended statement at the reachable state after one
creation of `"a"`. -/
theorem c2_witness :
    (keys (step ManagerState.init (Op.create "a")).sockets).count "a" ≤ 1 :=
  c2_registry_at_most_one _ "a" (Reachable.step _ _ Reachable.init)

/-- C3: after a close update whose status code is `loggedOut`, the credential
material of the session name is absent from the store (tokens folder deleted)
and the name is absent from the sockets registry. -/
theorem c3_loggedOut_purges (st : ManagerState) (name : String) (u : ConnUpdate)
    (hc : u.connection = some Conn.cclose)
    (hs : u.statusCode = some loggedOutCode) :
    alookup (handleConnectionUpdate name u st).creds name = none ∧
    alookup (handleConnectionUpdate name u st).sockets name = none := by
  have hA : nextAction u = PolicyAction.purgeAndDeregister := by
    simp [nextAction, hc, hs]
  rw [handle_eq, hA]
  constructor
  · rw [publish_creds]
    simpa [applyAction] using alookup_aerase_self st.creds name
  · rw [publish_sockets]
    simpa [applyAction] using alookup_aerase_self st.sockets name

/-- C3 (witness): a freshly created session `"a"` receives a
`close(loggedOut)` update: its credentials and registry entry are gone. -/
theorem c3_witness :
    alookup (handleConnectionUpdate "a" ⟨some Conn.cclose, some 401, none⟩
      (createSocketWhatsApp "a" ManagerState.init).2).creds "a" = none ∧
    alookup (handleConnectionUpdate "a" ⟨some Conn.cclose, some 401, none⟩
      (createSocketWhatsApp "a" ManagerState.init).2).sockets "a" = none :=
  c3_loggedOut_purges _ "a" _ rfl rfl

/-- C4: after a close update whose status code is `restartRequired`, exactly
one new transport open call is issued for the name, the stored credential
material for the name is unchanged, and the registry again holds exactly one
entry for the name. -/
theorem c4_restart_reopens_once (st : ManagerState) (name : String)
    (u : ConnUpdate) (c : Nat) (hc : u.connection = some Conn.cclose)
    (hs : u.statusCode = some restartRequiredCode)
    (hcred : alookup st.creds name = some c) :
    (handleConnectionUpdate name u st).openLog = st.openLog ++ [name] ∧
    alookup (handleConnectionUpdate name u st).creds name = some c ∧
    (keys (handleConnectionUpdate name u st).sockets).count name = 1 := by
  have hA : nextAction u = PolicyAction.reconnect := by
    simp [nextAction, hc, hs, loggedOutCode, restartRequiredCode]
  rw [handle_eq, hA]
  refine ⟨?_, ?_, ?_⟩
  · rw [publish_openLog]
    simp [applyAction, create_openLog]
  · rw [publish_creds]
    simp only [applyAction, create_creds]
    rw [useMulti_creds_of_some { st with sockets := aerase st.sockets name }
      name c hcred]
    exact hcred
  · rw [publish_sockets]
    simp only [applyAction, create_sockets]
    rw [aset_of_alookup_none _ _ _ (alookup_aerase_self st.sockets name)]
    have h1 : name ∉ keys (aerase st.sockets name) := by
      rw [mem_keys_aerase]
      simp
    have h0 : List.count name (keys (aerase st.sockets name)) = 0 :=
      List.count_eq_zero.mpr h1
    simp only [keys, List.map_append] at h0 ⊢
    rw [List.count_append, h0]
    simp

/-- C4 (witness): a freshly created session `"a"` receives a
`close(restartRequired)` update. -/
theorem c4_witness :
    (handleConnectionUpdate "a" ⟨some Conn.cclose, some 515, none⟩
        (createSocketWhatsApp "a" ManagerState.init).2).openLog =
      (createSocketWhatsApp "a" ManagerState.init).2.openLog ++ ["a"] ∧
    alookup (handleConnectionUpdate "a" ⟨some Conn.cclose, some 515, none⟩
        (createSocketWhatsApp "a" ManagerState.init).2).creds "a" = some 0 ∧
    (keys (handleConnectionUpdate "a" ⟨some Conn.cclose, some 515, none⟩
        (createSocketWhatsApp "a" ManagerState.init).2).sockets).count "a" = 1 :=
  c4_restart_reopens_once _ "a" _ 0 rfl rfl (by decide)

/-- C5: a close update whose status code is neither `loggedOut` nor
`restartRequired` deregisters the session, issues no new transport open call,
leaves the credential store untouched, and the update is delivered to all
current subscribers of the name — the session ends with no reconnect. -/
theorem c5_unknown_code_terminal (st : ManagerState) (name : String)
    (u : ConnUpdate) (hc : u.connection = some Conn.cclose)
    (h1 : u.statusCode ≠ some loggedOutCode)
    (h2 : u.statusCode ≠ some restartRequiredCode) :
    alookup (handleConnectionUpdate name u st).sockets name = none ∧
    (handleConnectionUpdate name u st).openLog = st.openLog ∧
    (handleConnectionUpdate name u st).creds = st.creds ∧
    (handleConnectionUpdate name u st).delivered =
      st.delivered ++ ((alookup st.subjects name).getD []).map (fun s => (s, u)) := by
  have hA : nextAction u = PolicyAction.deregisterOnly := by
    simp [nextAction, hc, h1, h2]
  refine ⟨?_, ?_, ?_, handle_delivered name u st⟩
  · rw [handle_eq, hA, publish_sockets]
    simpa [applyAction] using alookup_aerase_self st.sockets name
  · rw [handle_eq, hA, publish_openLog]
    simp [applyAction]
  · rw [handle_eq, hA, publish_creds]
    simp [applyAction]

/-- C5 (witness): session `"a"` with one subscriber receives a close update
with the unrecognized code 500. -/
theorem c5_witness :
    alookup (handleConnectionUpdate "a" ⟨some Conn.cclose, some 500, none⟩
      (subscribeTo "a" 7 (createSocketWhatsApp "a" ManagerState.init).2)).sockets
        "a" = none ∧
    (handleConnectionUpdate "a" ⟨some Conn.cclose, some 500, none⟩
      (subscribeTo "a" 7 (createSocketWhatsApp "a" ManagerState.init).2)).openLog =
      (subscribeTo "a" 7 (createSocketWhatsApp "a" ManagerState.init).2).openLog ∧
    (handleConnectionUpdate "a" ⟨some Conn.cclose, some 500, none⟩
      (subscribeTo "a" 7 (createSocketWhatsApp "a" ManagerState.init).2)).creds =
      (subscribeTo "a" 7 (createSocketWhatsApp "a" ManagerState.init).2).creds ∧
    (handleConnectionUpdate "a" ⟨some Conn.cclose, some 500, none⟩
      (subscribeTo "a" 7 (createSocketWhatsApp "a" ManagerState.init).2)).delivered =
      (subscribeTo "a" 7 (createSocketWhatsApp "a" ManagerState.init).2).delivered ++
        ((alookup (subscribeTo "a" 7
          (createSocketWhatsApp "a" ManagerState.init).2).subjects "a").getD []).map
          (fun s => (s, ⟨some Conn.cclose, some 500, none⟩)) :=
  c5_unknown_code_terminal _ "a" _ rfl (by decide) (by decide)

/-- C6 (counterexample): an update for `"a"` is processed (and so published)
while no one has subscribed: no publish point is created for `"a"` and the
event is delivered to no one, refuting "created lazily on first subscription
or first published event, whichever comes first". -/
theorem c6_counterexample :
    alookup (handleConnectionUpdate "a" ⟨some Conn.copen, none, none⟩
      ManagerState.init).subjects "a" = none ∧
    (handleConnectionUpdate "a" ⟨some Conn.copen, none, none⟩
      ManagerState.init).delivered = [] := by
  decide

/-- C6 (amended): the per-name publish point is created lazily on first
subscription only (`getConnectionUpdateObservable`); publishing an update
delivers it to exactly the subscribers currently subscribed to that name, and
to no one when no publish point exists. -/
theorem c6_lazy_subject_and_delivery (st : ManagerState) (name : String)
    (s : Nat) (u : ConnUpdate) :
    alookup (subscribeTo name s st).subjects name =
      some (((alookup st.subjects name).getD []) ++ [s]) ∧
    (handleConnectionUpdate name u st).delivered =
      st.delivered ++ ((alookup st.subjects name).getD []).map (fun x => (x, u)) := by
  constructor
  · unfold subscribeTo getConnectionUpdateObservable
    cases h : alookup st.subjects name with
    | none => simp [h, alookup_aset_self]
    | some subs => simp [h, alookup_aset_self]
  · exact handle_delivered name u st

/-- C7: hot broadcast, no replay: a subscriber that joins after an update was
published never receives that past update. -/
theorem c7_no_replay (st : ManagerState) (name : String) (s : Nat)
    (u : ConnUpdate) (h1 : s ∉ (alookup st.subjects name).getD [])
    (h2 : (s, u) ∉ st.delivered) :
    (s, u) ∉ (subscribeTo name s (handleConnectionUpdate name u st)).delivered := by
  rw [subscribeTo_delivered, handle_delivered]
  intro hmem
  rcases List.mem_append.mp hmem with hL | hR
  · exact h2 hL
  · obtain ⟨x, hx, hxe⟩ := List.mem_map.mp hR
    have hxs : x = s := congrArg Prod.fst hxe
    subst hxs
    exact h1 hx

/-- C7 (witness): subscriber 3 is subscribed when a pairing update is
published for `"a"`; subscriber 7 joins afterwards and has not received it. -/
theorem c7_witness :
    ((7 : Nat), (⟨some Conn.copen, none, some "XYZ"⟩ : ConnUpdate)) ∉
      (subscribeTo "a" 7 (handleConnectionUpdate "a"
        ⟨some Conn.copen, none, some "XYZ"⟩
        (subscribeTo "a" 3 ManagerState.init))).delivered :=
  c7_no_replay _ "a" 7 _ (by decide) (by decide)

/-- C8: the connection-update handling factors through the pure policy
function `nextAction` of the update alone: the registry/credential effect is
`applyAction` of that decision, followed by the emit — same state and update
always yield the same result, independently of any live transport handle. -/
theorem c8_policy_is_pure (name : String) (u : ConnUpdate) (st : ManagerState) :
    handleConnectionUpdate name u st =
      publish name u (applyAction name (nextAction u) st) :=
  handle_eq name u st

/-- C9: in every reachable manager state, `getExistingSessionNames` returns
exactly the names in the credential-store union the registry: the listing
reads the tokens folder, and every registered name also has stored
credentials. -/
theorem c9_names_are_store_union_registry (st : ManagerState)
    (h : Reachable st) (n : String) :
    n ∈ getExistingSessionNames st ↔
      (n ∈ keys st.creds ∨ n ∈ keys st.sockets) := by
  unfold getExistingSessionNames
  constructor
  · exact Or.inl
  · rintro (hc | hs)
    · exact hc
    · exact reachable_sockets_subset_creds st h n hs

/-- C9 (witness): the listing at the reachable state after one creation. -/
theorem c9_witness :
    "a" ∈ getExistingSessionNames (step ManagerState.init (Op.create "a")) ↔
      ("a" ∈ keys (step ManagerState.init (Op.create "a")).creds ∨
       "a" ∈ keys (step ManagerState.init (Op.create "a")).sockets) :=
  c9_names_are_store_union_registry _ (Reachable.step _ _ Reachable.init) "a"

/-- C10 (frame): a close update whose status code is not `loggedOut` leaves
the credential store exactly as it was (in particular the tokens folder of
the session is not deleted), provided material for the name is stored. -/
theorem c10_non_logout_keeps_creds (st : ManagerState) (name : String)
    (u : ConnUpdate) (c : Nat) (hc : u.connection = some Conn.cclose)
    (hne : u.statusCode ≠ some loggedOutCode)
    (hcred : alookup st.creds name = some c) :
    (handleConnectionUpdate name u st).creds = st.creds := by
  rw [handle_eq, publish_creds]
  by_cases hr : u.statusCode = some restartRequiredCode
  · have hA : nextAction u = PolicyAction.reconnect := by
      simp [nextAction, hc, hne, hr, loggedOutCode, restartRequiredCode]
    rw [hA]
    simp only [applyAction, create_creds]
    exact useMulti_creds_of_some { st with sockets := aerase st.sockets name }
      name c hcred
  · have hA : nextAction u = PolicyAction.deregisterOnly := by
      simp [nextAction, hc, hne, hr]
    rw [hA]
    rfl

/-- C10 (witness): the restart-required close on a session with stored
credentials leaves the store unchanged. -/
theorem c10_witness :
    (handleConnectionUpdate "a" ⟨some Conn.cclose, some 515, none⟩
        (createSocketWhatsApp "a" ManagerState.init).2).creds =
      (createSocketWhatsApp "a" ManagerState.init).2.creds :=
  c10_non_logout_keeps_creds _ "a" _ 0 rfl (by decide) (by decide)

end MkMessenger
